import Mathlib

/-!
# Verification of the HEVC SPS decoder (hevc/sps.go)

Shallow embedding of the SPS NAL-unit decoder: the accumulated-error bit
cursor, the SPS / VUI / short-term-reference-picture-set decode routines,
the scaling-list skip routine and the derived-geometry function, together
with theorems settling the specification claims about them.

Machine integers are modelled as `Nat` with explicit `% 2^w` reductions at
the places where the Go source performs a narrowing conversion
(`byte(...)`, `uint32(...)`, `uint16(...)`).  Go slice indexing that may
panic is modelled with `Except GoPanic`.
-/

/-- A Go runtime panic (here: out-of-range slice indexing). -/
inductive GoPanic where
  | indexOutOfRange
  deriving DecidableEq, Repr

/-- The error kinds produced by the decoder and its bit cursor, mirroring
the distinct `error` values of the source and the spec's error taxonomy
(`Truncated`, `Malformed`, `TooManyReferencePictures`, `WrongUnitType`,
`UnknownAspectRatioIDC`). -/
inductive DecodeError where
  /-- buffer exhausted mid-field -/
  | truncated
  /-- Exp-Golomb leading-zero run beyond the sane bound -/
  | malformedExpGolomb
  /-- "deltaIdx > idx in parseShortTermRPS" -/
  | malformedDeltaIdx
  /-- "more than 16 short term reference pictures" -/
  | tooManyRefPics
  /-- "NALU type is %s not SPS"; carries the decoded type -/
  | wrongUnitType (t : Nat)
  /-- aspect-ratio lookup rejected the IDC -/
  | unknownAspectRatio (idc : Nat)
  deriving DecidableEq, Repr

/-- Modelled from the spec: the accumulated-error bit cursor of the `bits`
package (`bits.AccErrEBSPReader`), which is part of this repository but is
not under `src/`.  Per spec §3/§4.1 it owns the (emulation-prevention
stripped) bit sequence and latches the first error encountered; after an
error every read returns a zero value without advancing. -/
structure Reader where
  bits : List Bool
  err : Option DecodeError
  deriving DecidableEq, Repr

/-- Fresh cursor over a bit sequence. -/
def mkReader (bs : List Bool) : Reader := ⟨bs, none⟩

/-- Most-significant-bit-first interpretation of a bit list. -/
def bitsToNat (bs : List Bool) : Nat :=
  bs.foldl (fun a b => 2 * a + (if b then 1 else 0)) 0

/-- Modelled from the spec: `SetError` of the accumulated-error reader;
per spec §4.1/§7 the cursor "accumulates the first error encountered"
("errors are latched once"), so a later error never replaces an earlier
one. -/
def setError (e : DecodeError) (r : Reader) : Reader :=
  if r.err.isSome then r else { r with err := some e }

/-- Modelled from the spec: `readBits(n)` (spec §4.1): returns the next
`n` bits MSB-first; fails with `Truncated` when fewer than `n` bits
remain; after a latched error returns 0 without advancing. -/
def readBits (n : Nat) (r : Reader) : Nat × Reader :=
  if r.err.isSome then (0, r)
  else if r.bits.length < n then (0, { r with err := some .truncated })
  else (bitsToNat (r.bits.take n), { r with bits := r.bits.drop n })

/-- Modelled from the spec: `readFlag()` is `readBits(1) != 0`. -/
def readFlag (r : Reader) : Bool × Reader :=
  let p := readBits 1 r
  (p.1 != 0, p.2)

/-- Number of `false` bits before the first `true` bit, `none` when the
list holds no `true` bit. -/
def countLeadingZeros : List Bool → Option Nat
  | [] => none
  | true :: _ => some 0
  | false :: rest => (countLeadingZeros rest).map (fun k => k + 1)

/-- Modelled from the spec: `readExpGolomb()` (spec §4.1): count the
leading zero bits up to the terminating one bit, then read that many
suffix bits; the value is `2^k - 1 + suffix`.  Fails with `Truncated`
when the terminating bit or the suffix runs past the end, and with a
`Malformed` error when the leading-zero run exceeds the sane bound 32. -/
def readExpGolomb (r : Reader) : Nat × Reader :=
  if r.err.isSome then (0, r)
  else
    match countLeadingZeros r.bits with
    | none => (0, { r with err := some .truncated })
    | some k =>
      if 32 < k then (0, { r with err := some .malformedExpGolomb })
      else
        let rest := r.bits.drop (k + 1)
        if rest.length < k then (0, { r with err := some .truncated })
        else (2 ^ k - 1 + bitsToNat (rest.take k), { r with bits := rest.drop k })

/-- Skip `n` Exp-Golomb codes (discarding the values). -/
def skipEGs : Nat → Reader → Reader
  | 0, r => r
  | n + 1, r => skipEGs n (readExpGolomb r).2

/-- One `(sizeId, matrixId)` iteration of `readPastScalingListData`:
read the prediction-mode flag; when false read and discard the matrix-id
delta; when true read and discard `coefNum` delta coefficients.  Note:
for `sizeId > 1` the source line `_ = r.ReadExpGolomb` takes the method
value without calling it, so no DC-coefficient code is consumed there. -/
def skipScalingMatrix (sizeId : Nat) (r : Reader) : Reader :=
  let pFlag := readFlag r
  if pFlag.1 = false then (readExpGolomb pFlag.2).2
  else
    let c0 := 1 <<< (4 + (sizeId <<< 1))
    let coefNum := if c0 > 64 then 64 else c0
    skipEGs coefNum pFlag.2

/-- The inner `matrixId` loop of `readPastScalingListData`: `n`
iterations at a fixed `sizeId`. -/
def skipMatrices (sizeId : Nat) : Nat → Reader → Reader
  | 0, r => r
  | n + 1, r => skipMatrices sizeId n (skipScalingMatrix sizeId r)

/-- `readPastScalingListData`: advance the cursor past the scaling-list
structure (size classes 0..3 with 6 matrices each, except 2 matrices for
size class 3) without retaining any value. -/
def readPastScalingListData (r : Reader) : Reader :=
  skipMatrices 3 2 (skipMatrices 2 6 (skipMatrices 1 6 (skipMatrices 0 6 r)))

/-- Modelled from the spec: one `(sizeId, matrixId)` iteration of the
scaling-list skip as §4.4 describes it: "if true, for size classes beyond
index 1 read and discard a DC-coefficient-minus-8 Exp-Golomb value, then
read and discard `min(64, 1 << (4 + 2·sizeId))` Exp-Golomb
delta-coefficient values".  Used only to compare the source's behaviour
with the spec's words. -/
def skipScalingMatrixSpec (sizeId : Nat) (r : Reader) : Reader :=
  let pFlag := readFlag r
  if pFlag.1 = false then (readExpGolomb pFlag.2).2
  else
    let coefNum := min 64 (1 <<< (4 + 2 * sizeId))
    let r1 := if 1 < sizeId then (readExpGolomb pFlag.2).2 else pFlag.2
    skipEGs coefNum r1

/-- Modelled from the spec: the inner loop of the spec's §4.4 skip. -/
def skipMatricesSpec (sizeId : Nat) : Nat → Reader → Reader
  | 0, r => r
  | n + 1, r => skipMatricesSpec sizeId n (skipScalingMatrixSpec sizeId r)

/-- Modelled from the spec: the whole §4.4 scaling-list skip, with the
DC-coefficient read for size classes beyond index 1. -/
def readPastScalingListDataSpec (r : Reader) : Reader :=
  skipMatricesSpec 3 2 (skipMatricesSpec 2 6 (skipMatricesSpec 1 6 (skipMatricesSpec 0 6 r)))

/-- `ProfileTierLevel` (ISO/IEC 23008-2 Section 7.3.3). -/
structure ProfileTierLevel where
  GeneralProfileSpace : Nat := 0
  GeneralTierFlag : Bool := false
  GeneralProfileIDC : Nat := 0
  GeneralProfileCompatibilityFlags : Nat := 0
  GeneralConstraintIndicatorFlags : Nat := 0
  GeneralProgressiveSourceFlag : Bool := false
  GeneralInterlacedSourceFlag : Bool := false
  GeneralNonPackedConstraintFlag : Bool := false
  GeneralFrameOnlyConstraintFlag : Bool := false
  GeneralLevelIDC : Nat := 0
  deriving DecidableEq, Repr

/-- `ConformanceWindow`: four crop offsets (uint32 in the source). -/
structure ConformanceWindow where
  LeftOffset : Nat := 0
  RightOffset : Nat := 0
  TopOffset : Nat := 0
  BottomOffset : Nat := 0
  deriving DecidableEq, Repr

/-- `SubLayerOrderingInfo`. -/
structure SubLayerOrderingInfo where
  MaxDecPicBufferingMinus1 : Nat := 0
  MaxNumReorderPics : Nat := 0
  MaxLatencyIncreasePlus1 : Nat := 0
  deriving DecidableEq, Repr

/-- `BitstreamRestrictions`, the optional VUI sub-aggregate. -/
structure BitstreamRestrictions where
  TilesFixedStructureFlag : Bool := false
  MVOverPicBoundariesFlag : Bool := false
  RestrictedRefsPicsListsFlag : Bool := false
  MinSpatialSegmentationIDC : Nat := 0
  MaxBytesPerPicDenom : Nat := 0
  MaxBitsPerMinCuDenom : Nat := 0
  Log2MaxMvLengthHorizontal : Nat := 0
  Log2MaxMvLengthVertical : Nat := 0
  deriving DecidableEq, Repr

/-- `VUIParameters` (Section E.2). -/
structure VUIParameters where
  SampleAspectRatioWidth : Nat := 0
  SampleAspectRatioHeight : Nat := 0
  OverscanInfoPresentFlag : Bool := false
  OverscanAppropriateFlag : Bool := false
  VideoSignalTypePresentFlag : Bool := false
  VideoFormat : Nat := 0
  VideoFullRangeFlag : Bool := false
  ColourDescriptionFlag : Bool := false
  ColourPrimaries : Nat := 0
  TransferCharacteristics : Nat := 0
  MatrixCoefficients : Nat := 0
  ChromaLocInfoPresentFlag : Bool := false
  ChromaSampleLocTypeTopField : Nat := 0
  ChromaSampleLocTypeBottomField : Nat := 0
  NeutralChromaIndicationFlag : Bool := false
  FieldSeqFlag : Bool := false
  FrameFieldInfoPresentFlag : Bool := false
  DefaultDisplayWindowFlag : Bool := false
  DefDispWinLeftOffset : Nat := 0
  DefDispWinRightOffset : Nat := 0
  DefDispWinTopOffset : Nat := 0
  DefDispWinBottomOffset : Nat := 0
  TimingInfoPresentFlag : Bool := false
  NumUnitsInTick : Nat := 0
  TimeScale : Nat := 0
  PocProportionalToTimingFlag : Bool := false
  NumTicksPocDiffOneMinus1 : Nat := 0
  HrdParametersPresentFlag : Bool := false
  BitstreamRestrictionFlag : Bool := false
  BitstreamResctrictions : Option BitstreamRestrictions := none
  deriving DecidableEq, Repr

/-- `ShortTermRPS` - one short-term reference picture set. -/
structure ShortTermRPS where
  DeltaPocS0 : List Nat := []
  DeltaPocS1 : List Nat := []
  UsedByCurrPicS0 : List Bool := []
  UsedByCurrPicS1 : List Bool := []
  NumNegativePics : Nat := 0
  NumPositivePics : Nat := 0
  NumDeltaPocs : Nat := 0
  deriving DecidableEq, Repr

/-- `SPS` - HEVC sequence parameter set (ISO/IEC 23008-2 Sec. 7.3.2.2). -/
structure SPS where
  VpsID : Nat := 0
  MaxSubLayersMinus1 : Nat := 0
  TemporalIDNestingFlag : Bool := false
  ProfileTierLevel : ProfileTierLevel := {}
  SpsID : Nat := 0
  ChromaFormatIDC : Nat := 0
  SeparateColourPlaneFlag : Bool := false
  ConformanceWindowFlag : Bool := false
  PicWidthInLumaSamples : Nat := 0
  PicHeightInLumaSamples : Nat := 0
  ConformanceWindow : ConformanceWindow := {}
  BitDepthLumaMinus8 : Nat := 0
  BitDepthChromaMinus8 : Nat := 0
  Log2MaxPicOrderCntLsbMinus4 : Nat := 0
  SubLayerOrderingInfoPresentFlag : Bool := false
  SubLayeringOrderingInfos : List SubLayerOrderingInfo := []
  Log2MinLumaCodingBlockSizeMinus3 : Nat := 0
  Log2DiffMaxMinLumaCodingBlockSize : Nat := 0
  Log2MinLumaTransformBlockSizeMinus2 : Nat := 0
  Log2DiffMaxMinLumaTransformBlockSize : Nat := 0
  MaxTransformHierarchyDepthInter : Nat := 0
  MaxTransformHierarchyDepthIntra : Nat := 0
  ScalingListEnabledFlag : Bool := false
  ScalingListDataPresentFlag : Bool := false
  AmpEnabledFlag : Bool := false
  SampleAdaptiveOffsetEnabledFlag : Bool := false
  PCMEnabledFlag : Bool := false
  PcmSampleBitDepthLumaMinus1 : Nat := 0
  PcmSampleBitDepthChromaMinus1 : Nat := 0
  Log2MinPcmLumaCodingBlockSize : Nat := 0
  Log2DiffMaxMinPcmLumaCodingBlockSize : Nat := 0
  PcmLoopFilterDisabledFlag : Bool := false
  NumShortTermRefPicSets : Nat := 0
  ShortTermRefPicSets : List ShortTermRPS := []
  LongTermRefPicsPresentFlag : Bool := false
  SpsTemporalMvpEnabledFlag : Bool := false
  StrongIntraSmoothingEnabledFlag : Bool := false
  VUIParametersPresentFlag : Bool := false
  VUI : Option VUIParameters := none
  deriving DecidableEq, Repr

/-- The Go zero value of `ShortTermRPS`. -/
def stRPSZero : ShortTermRPS := {}

/-- The Go zero value of `SPS` (`&SPS{}` at the start of the parse). -/
def spsZero : SPS := {}

/-- The Go zero value of `VUIParameters` (`&VUIParameters{}`). -/
def vuiZero : VUIParameters := {}

/-- The chroma-subsampling factors chosen by `ImageSize`'s switch on
`ChromaFormatIDC`: IDC 1 yields (2,2), IDC 2 yields (2,1), every other
value yields (1,1). -/
def subWidthHeightC (idc : Nat) : Nat × Nat :=
  match idc with
  | 1 => (2, 2)
  | 2 => (2, 1)
  | _ => (1, 1)

/-- `ImageSize` - the width and height computed from the encoded luma
dimensions and the conformance-window offsets, with all arithmetic
performed on uint32 (thus modulo `2^32`). -/
def ImageSize (s : SPS) : Nat × Nat :=
  let subs := subWidthHeightC s.ChromaFormatIDC
  let cropW := ((s.ConformanceWindow.LeftOffset + s.ConformanceWindow.RightOffset) % 4294967296
      * subs.1) % 4294967296
  let cropH := ((s.ConformanceWindow.TopOffset + s.ConformanceWindow.BottomOffset) % 4294967296
      * subs.2) % 4294967296
  ((s.PicWidthInLumaSamples % 4294967296 + 4294967296 - cropW) % 4294967296,
   (s.PicHeightInLumaSamples % 4294967296 + 4294967296 - cropH) % 4294967296)

/-- The claim's worked example: 4:2:0 chroma, encoded 1920 by 1088, crop
offsets (0,0,0,4). -/
def spsGeometryExample : SPS := { spsZero with
    ChromaFormatIDC := 1,
    PicWidthInLumaSamples := 1920, PicHeightInLumaSamples := 1088,
    ConformanceWindow := { LeftOffset := 0, RightOffset := 0, TopOffset := 0, BottomOffset := 4 } }

/-- A malformed-offset record: 4:2:0 chroma, 16 by 16 encoded, crop of
10 luma samples on one side in each direction, so the crop (20) exceeds
both encoded dimensions. -/
def spsOverflowExample : SPS := { spsZero with
    ChromaFormatIDC := 1,
    PicWidthInLumaSamples := 16, PicHeightInLumaSamples := 16,
    ConformanceWindow := { LeftOffset := 10, RightOffset := 0, TopOffset := 0, BottomOffset := 10 } }

/-- The per-picture loop bodies of the explicit branch of
`parseShortTermRPS`: read `n` pairs of (Exp-Golomb delta-POC, used-flag);
each stored delta is `uint32(raw + 1)`. -/
def readDeltaPocPairs : Nat → Reader → List Nat × List Bool × Reader
  | 0, r => ([], [], r)
  | n + 1, r =>
    let p := readExpGolomb r
    let d := (p.1 + 1) % 4294967296
    let q := readFlag p.2
    let rest := readDeltaPocPairs n q.2
    (d :: rest.1, q.1 :: rest.2.1, rest.2.2)

/-- The raw Exp-Golomb code values read at the delta-POC positions of
`readDeltaPocPairs` (specification-side view used to relate the stored
deltas to the codes they come from). -/
def rawDeltaPocCodes : Nat → Reader → List Nat
  | 0, _ => []
  | n + 1, r =>
    let p := readExpGolomb r
    let q := readFlag p.2
    p.1 :: rawDeltaPocCodes n q.2

/-- The explicit (non-inter-predicted) branch of `parseShortTermRPS`:
read the negative/positive picture counts (each narrowed to a byte); when
either exceeds 16 latch the `TooManyReferencePictures` error and return
the entry with the counts set but no lists; otherwise read the two lists
of delta-POC pairs. -/
def parseSTRPSExplicit (r : Reader) : ShortTermRPS × Reader :=
  let p0 := readExpGolomb r
  let n0 := p0.1 % 256
  let p1 := readExpGolomb p0.2
  let n1 := p1.1 % 256
  if 16 < n0 ∨ 16 < n1 then
    ({ stRPSZero with NumNegativePics := n0, NumPositivePics := n1 },
     setError .tooManyRefPics p1.2)
  else
    let s0 := readDeltaPocPairs n0 p1.2
    let s1 := readDeltaPocPairs n1 s0.2.2
    ({ DeltaPocS0 := s0.1, UsedByCurrPicS0 := s0.2.1,
       DeltaPocS1 := s1.1, UsedByCurrPicS1 := s1.2.1,
       NumNegativePics := n0, NumPositivePics := n1,
       NumDeltaPocs := (n0 + n1) % 256 }, s1.2.2)

/-- The inter-prediction branch's loop over the referenced entry's
delta-POCs: read `usedByCurrPicFlag` (and `useDeltaFlag` when the former
is false) and count the positions where either holds; the count is a byte
accumulator. -/
def countUsedDeltaPocs : Nat → Nat → Reader → Nat × Reader
  | 0, acc, r => (acc, r)
  | j + 1, acc, r =>
    let u := readFlag r
    let ud := if !u.1 then readFlag u.2 else (false, u.2)
    countUsedDeltaPocs j (if u.1 || ud.1 then (acc + 1) % 256 else acc) ud.2

/-- The inter-RPS-prediction branch of `parseShortTermRPS`.  `deltaIdx`
is 1, or `byte(deltaIdxMinus1 + 1)` in the slice-header case
`idx == numSTRefPicSets`; when `deltaIdx > idx` the source latches the
`Malformed` error but does not return, so it goes on to compute
`refIdx = byte(idx - deltaIdx)` and index the previously decoded entries,
which panics when `refIdx` is out of range. -/
def parseSTRPSInter (r : Reader) (idx numSTRefPicSets : Nat) (sets : List ShortTermRPS) :
    Except GoPanic (ShortTermRPS × Reader) :=
  let pDelta :=
    if idx = numSTRefPicSets then
      let e := readExpGolomb r
      ((e.1 + 1) % 256, e.2)
    else (1, r)
  let r1 := if idx % 256 < pDelta.1 then setError .malformedDeltaIdx pDelta.2 else pDelta.2
  let pSign := readBits 1 r1
  let pAbs := readExpGolomb pSign.2
  let refIdx := (idx % 256 + 256 - pDelta.1) % 256
  match sets.get? refIdx with
  | none => .error .indexOutOfRange
  | some ref =>
    let pCnt := countUsedDeltaPocs ref.NumDeltaPocs 0 pAbs.2
    .ok ({ stRPSZero with NumDeltaPocs := pCnt.1 }, pCnt.2)

/-- `parseShortTermRPS` - decode one short-term reference picture set
(syntax 7.3.7).  `idx` and `numSTRefPicSets` are bytes in the source;
`sets` is the sequence of previously decoded entries
(`sps.ShortTermRefPicSets`). -/
def parseShortTermRPS (r : Reader) (idx numSTRefPicSets : Nat) (sets : List ShortTermRPS) :
    Except GoPanic (ShortTermRPS × Reader) :=
  let pFlag := if 0 < idx then readFlag r else (false, r)
  if pFlag.1 then parseSTRPSInter pFlag.2 idx numSTRefPicSets sets
  else .ok (parseSTRPSExplicit pFlag.2)

/-- The short-term-RPS loop of `ParseSPSNALUnit` (lines 216-221): decode
`n` more entries starting at index `idx`, appending each to `sets`; after
each entry, when the cursor error is set, stop and return what was built
together with that reader. -/
def parseRPSLoop (num : Nat) : Nat → Nat → List ShortTermRPS → Reader →
    Except GoPanic (List ShortTermRPS × Reader)
  | 0, _, sets, r => .ok (sets, r)
  | n + 1, idx, sets, r =>
    match parseShortTermRPS r idx num sets with
    | .error p => .error p
    | .ok (s, r1) =>
      if r1.err.isSome then .ok (sets ++ [s], r1)
      else parseRPSLoop num n (idx + 1) (sets ++ [s]) r1

/-- Modelled from the spec: the aspect-ratio collaborator's sentinel
`avc.ExtendedSAR`; the spec calls it "a reserved extended sentinel value"
signaling that explicit 16-bit width/height follow (value 255 per the
AVC/HEVC standards). -/
def extendedSAR : Nat := 255

/-- Modelled from the spec: the aspect-ratio collaborator
`avc.GetSARfromIDC`, "a pure function from an 8-bit index to width/height
ratio" that rejects unknown IDCs; the table for IDC 1..16 is the standard
AVC sample-aspect-ratio table. -/
def getSARfromIDC (idc : Nat) : Option (Nat × Nat) :=
  match idc with
  | 1 => some (1, 1)
  | 2 => some (12, 11)
  | 3 => some (10, 11)
  | 4 => some (16, 11)
  | 5 => some (40, 33)
  | 6 => some (24, 11)
  | 7 => some (20, 11)
  | 8 => some (32, 11)
  | 9 => some (80, 33)
  | 10 => some (18, 11)
  | 11 => some (15, 11)
  | 12 => some (64, 33)
  | 13 => some (160, 99)
  | 14 => some (4, 3)
  | 15 => some (3, 2)
  | 16 => some (2, 1)
  | _ => none

/-- The part of `parseVUI` before the timing-info flag: aspect ratio
(table lookup or explicit 16-bit pair for the extended sentinel),
overscan, video signal type (with nested colour description), chroma
sample location, the neutral-chroma/field-seq/frame-field flags and the
default display window. -/
def parseVUIHead (r0 : Reader) : VUIParameters × Reader :=
  let pArf := readFlag r0
  let pSar : (Nat × Nat) × Reader :=
    if pArf.1 then
      let pIdc := readBits 8 pArf.2
      if pIdc.1 = extendedSAR then
        let w := readBits 16 pIdc.2
        let h := readBits 16 w.2
        ((w.1, h.1), h.2)
      else
        match getSARfromIDC pIdc.1 with
        | some wh => (wh, pIdc.2)
        | none => ((0, 0), setError (.unknownAspectRatio pIdc.1) pIdc.2)
    else ((0, 0), pArf.2)
  let pOv := readFlag pSar.2
  let pOvA := if pOv.1 then readFlag pOv.2 else (false, pOv.2)
  let pVst := readFlag pOvA.2
  let pVideo : (Nat × Bool × Bool × Nat × Nat × Nat) × Reader :=
    if pVst.1 then
      let f := readBits 3 pVst.2
      let fr := readFlag f.2
      let cd := readFlag fr.2
      if cd.1 then
        let cp := readBits 8 cd.2
        let tc := readBits 8 cp.2
        let mc := readBits 8 tc.2
        ((f.1, fr.1, true, cp.1, tc.1, mc.1), mc.2)
      else ((f.1, fr.1, false, 0, 0, 0), cd.2)
    else ((0, false, false, 0, 0, 0), pVst.2)
  let pCl := readFlag pVideo.2
  let pClVals : (Nat × Nat) × Reader :=
    if pCl.1 then
      let a := readExpGolomb pCl.2
      let b := readExpGolomb a.2
      ((a.1, b.1), b.2)
    else ((0, 0), pCl.2)
  let pNc := readFlag pClVals.2
  let pFs := readFlag pNc.2
  let pFf := readFlag pFs.2
  let pDd := readFlag pFf.2
  let pDdVals : (Nat × Nat × Nat × Nat) × Reader :=
    if pDd.1 then
      let a := readExpGolomb pDd.2
      let b := readExpGolomb a.2
      let c := readExpGolomb b.2
      let d := readExpGolomb c.2
      ((a.1, b.1, c.1, d.1), d.2)
    else ((0, 0, 0, 0), pDd.2)
  ({ vuiZero with
      SampleAspectRatioWidth := pSar.1.1,
      SampleAspectRatioHeight := pSar.1.2,
      OverscanInfoPresentFlag := pOv.1,
      OverscanAppropriateFlag := pOvA.1,
      VideoSignalTypePresentFlag := pVst.1,
      VideoFormat := pVideo.1.1,
      VideoFullRangeFlag := pVideo.1.2.1,
      ColourDescriptionFlag := pVideo.1.2.2.1,
      ColourPrimaries := pVideo.1.2.2.2.1,
      TransferCharacteristics := pVideo.1.2.2.2.2.1,
      MatrixCoefficients := pVideo.1.2.2.2.2.2,
      ChromaLocInfoPresentFlag := pCl.1,
      ChromaSampleLocTypeTopField := pClVals.1.1,
      ChromaSampleLocTypeBottomField := pClVals.1.2,
      NeutralChromaIndicationFlag := pNc.1,
      FieldSeqFlag := pFs.1,
      FrameFieldInfoPresentFlag := pFf.1,
      DefaultDisplayWindowFlag := pDd.1,
      DefDispWinLeftOffset := pDdVals.1.1,
      DefDispWinRightOffset := pDdVals.1.2.1,
      DefDispWinTopOffset := pDdVals.1.2.2.1,
      DefDispWinBottomOffset := pDdVals.1.2.2.2 }, pDdVals.2)

/-- The timing-info body of `parseVUI` (fields read when the
timing-info-present flag is true): `num_units_in_tick`, `time_scale`,
the POC-proportional-to-timing flag with its optional Exp-Golomb count,
and the HRD-parameters-present flag. -/
def parseVUITiming (v : VUIParameters) (r : Reader) : VUIParameters × Reader :=
  let nu := readBits 32 r
  let ts := readBits 32 nu.2
  let pp := readFlag ts.2
  let pt := if pp.1 then readExpGolomb pp.2 else (0, pp.2)
  let hrd := readFlag pt.2
  ({ v with
      NumUnitsInTick := nu.1,
      TimeScale := ts.1,
      PocProportionalToTimingFlag := pp.1,
      NumTicksPocDiffOneMinus1 := pt.1,
      HrdParametersPresentFlag := hrd.1 }, hrd.2)

/-- `parseBitstreamRestrictions`: three flags followed by five Exp-Golomb
values. -/
def parseBitstreamRestrictions (r : Reader) : BitstreamRestrictions × Reader :=
  let a := readFlag r
  let b := readFlag a.2
  let c := readFlag b.2
  let d := readExpGolomb c.2
  let e := readExpGolomb d.2
  let f := readExpGolomb e.2
  let g := readExpGolomb f.2
  let h := readExpGolomb g.2
  ({ TilesFixedStructureFlag := a.1,
     MVOverPicBoundariesFlag := b.1,
     RestrictedRefsPicsListsFlag := c.1,
     MinSpatialSegmentationIDC := d.1,
     MaxBytesPerPicDenom := e.1,
     MaxBitsPerMinCuDenom := f.1,
     Log2MaxMvLengthHorizontal := g.1,
     Log2MaxMvLengthVertical := h.1 }, h.2)

/-- The tail of `parseVUI` after the timing-info section: the
bitstream-restriction flag and, when set, the nested restrictions. -/
def parseVUITail (v : VUIParameters) (r : Reader) : VUIParameters × Reader :=
  let bf := readFlag r
  let v1 := { v with BitstreamRestrictionFlag := bf.1 }
  if bf.1 then
    let pb := parseBitstreamRestrictions bf.2
    ({ v1 with BitstreamResctrictions := some pb.1 }, pb.2)
  else (v1, bf.2)

/-- `parseVUI` - parse the Visual Usability Information.  When timing
info is present and the HRD-parameters-present flag reads true, the
source returns the partially filled VUI immediately (HRD parsing is
unsupported), so the bitstream-restriction section is never reached. -/
def parseVUI (r : Reader) : VUIParameters × Reader :=
  let ph := parseVUIHead r
  let tf := readFlag ph.2
  let v1 := { ph.1 with TimingInfoPresentFlag := tf.1 }
  if tf.1 then
    let pt := parseVUITiming v1 tf.2
    if pt.1.HrdParametersPresentFlag then pt
    else parseVUITail pt.1 pt.2
  else parseVUITail v1 tf.2

/-- The VUI decode stopped at the HRD point, as the spec's §4.5 words
describe the early return: everything through the timing-info body
(ending with the HRD-parameters-present flag) is decoded and the
partially filled VUI is returned as final.  Compared against `parseVUI`
in the claim about the early return. -/
def vuiStopAtHRD (r : Reader) : VUIParameters × Reader :=
  let ph := parseVUIHead r
  let tf := readFlag ph.2
  parseVUITiming { ph.1 with TimingInfoPresentFlag := tf.1 } tf.2

/-- Modelled from the spec: the NAL-unit-type collaborator
`GetNaluType`, an external "classify(byte) -> UnitType" lookup; per spec
§6 the type sits in the upper bits of the first header byte after the
1-bit forbidden-zero bit and before the layer-ID field, so it is
`(b >> 1) & 0x3f`. -/
def getNaluType (b : Nat) : Nat := (b / 2) % 64

/-- Modelled from the spec: the constant `SPS` tag compared against the
classified unit type (value 33 per ISO/IEC 23008-2 Table 7-1). -/
def NALU_SPS : Nat := 33

/-- The sub-layer-ordering-info loop body: `n` triples of Exp-Golomb
fields, each narrowed to a byte. -/
def readSubLayerInfos : Nat → Reader → List SubLayerOrderingInfo × Reader
  | 0, r => ([], r)
  | n + 1, r =>
    let a := readExpGolomb r
    let b := readExpGolomb a.2
    let c := readExpGolomb b.2
    let rest := readSubLayerInfos n c.2
    ({ MaxDecPicBufferingMinus1 := a.1 % 256,
       MaxNumReorderPics := b.1 % 256,
       MaxLatencyIncreasePlus1 := c.1 % 256 } :: rest.1, rest.2)

/-- The long-term-reference-pictures loop: for each of `n` entries skip
`w` bits (`log2MaxPicOrderCntLsbMinus4 + 4`) and one flag, retaining
nothing. -/
def skipLongTermPics : Nat → Nat → Reader → Reader
  | 0, _, r => r
  | n + 1, w, r =>
    let a := readBits w r
    let b := readFlag a.2
    skipLongTermPics n w b.2

set_option maxHeartbeats 1000000 in
/-- `ParseSPSNALUnit` - parse an SPS NAL unit (header included) from its
(emulation-prevention-stripped) bit sequence.  Returns the Go pair
`(*SPS, error)` as `Option SPS × Option DecodeError`, inside
`Except GoPanic` because the short-term-RPS decode can panic. -/
def ParseSPSNALUnit (data : List Bool) : Except GoPanic (Option SPS × Option DecodeError) :=
  let r0 := mkReader data
  let pHdr := readBits 16 r0
  let naluType := getNaluType (pHdr.1 / 256 % 256)
  if naluType ≠ NALU_SPS then .ok (none, some (.wrongUnitType naluType))
  else
    let pVps := readBits 4 pHdr.2
    let pMsl := readBits 3 pVps.2
    let pTn := readFlag pMsl.2
    let pPs := readBits 2 pTn.2
    let pTf := readFlag pPs.2
    let pPi := readBits 5 pTf.2
    let pCf := readBits 32 pPi.2
    let pCi := readBits 48 pCf.2
    let pLi := readBits 8 pCi.2
    let sps1 : SPS := { spsZero with
        VpsID := pVps.1,
        MaxSubLayersMinus1 := pMsl.1,
        TemporalIDNestingFlag := pTn.1,
        ProfileTierLevel := {
          GeneralProfileSpace := pPs.1,
          GeneralTierFlag := pTf.1,
          GeneralProfileIDC := pPi.1,
          GeneralProfileCompatibilityFlags := pCf.1,
          GeneralConstraintIndicatorFlags := pCi.1,
          GeneralLevelIDC := pLi.1 } }
    if sps1.MaxSubLayersMinus1 ≠ 0 then .ok (some sps1, none)
    else
      let pSpsId := readExpGolomb pLi.2
      let pChroma := readExpGolomb pSpsId.2
      let sps2 := { sps1 with SpsID := pSpsId.1 % 256, ChromaFormatIDC := pChroma.1 % 256 }
      let pSep := if sps2.ChromaFormatIDC = 3 then readFlag pChroma.2 else (false, pChroma.2)
      let pW := readExpGolomb pSep.2
      let pH := readExpGolomb pW.2
      let pCwf := readFlag pH.2
      let sps3 := { sps2 with
          SeparateColourPlaneFlag := pSep.1,
          PicWidthInLumaSamples := pW.1 % 4294967296,
          PicHeightInLumaSamples := pH.1 % 4294967296,
          ConformanceWindowFlag := pCwf.1 }
      let pCw : ConformanceWindow × Reader :=
        if sps3.ConformanceWindowFlag then
          let a := readExpGolomb pCwf.2
          let b := readExpGolomb a.2
          let c := readExpGolomb b.2
          let d := readExpGolomb c.2
          ({ LeftOffset := a.1 % 4294967296, RightOffset := b.1 % 4294967296,
             TopOffset := c.1 % 4294967296, BottomOffset := d.1 % 4294967296 }, d.2)
        else ({}, pCwf.2)
      let pBdl := readExpGolomb pCw.2
      let pBdc := readExpGolomb pBdl.2
      let pLog2 := readExpGolomb pBdc.2
      let pSloi := readFlag pLog2.2
      let sps4 := { sps3 with
          ConformanceWindow := pCw.1,
          BitDepthLumaMinus8 := pBdl.1 % 256,
          BitDepthChromaMinus8 := pBdc.1 % 256,
          Log2MaxPicOrderCntLsbMinus4 := pLog2.1 % 256,
          SubLayerOrderingInfoPresentFlag := pSloi.1 }
      let startValue := if sps4.SubLayerOrderingInfoPresentFlag then 0 else sps4.MaxSubLayersMinus1
      let pInfos := readSubLayerInfos (sps4.MaxSubLayersMinus1 + 1 - startValue) pSloi.2
      let pL1 := readExpGolomb pInfos.2
      let pL2 := readExpGolomb pL1.2
      let pL3 := readExpGolomb pL2.2
      let pL4 := readExpGolomb pL3.2
      let pT1 := readExpGolomb pL4.2
      let pT2 := readExpGolomb pT1.2
      let pSle := readFlag pT2.2
      let sps5 := { sps4 with
          SubLayeringOrderingInfos := pInfos.1,
          Log2MinLumaCodingBlockSizeMinus3 := pL1.1 % 256,
          Log2DiffMaxMinLumaCodingBlockSize := pL2.1 % 256,
          Log2MinLumaTransformBlockSizeMinus2 := pL3.1 % 256,
          Log2DiffMaxMinLumaTransformBlockSize := pL4.1 % 256,
          MaxTransformHierarchyDepthInter := pT1.1 % 256,
          MaxTransformHierarchyDepthIntra := pT2.1 % 256,
          ScalingListEnabledFlag := pSle.1 }
      let pScal : Bool × Reader :=
        if sps5.ScalingListEnabledFlag then
          let pSldp := readFlag pSle.2
          (pSldp.1, if pSldp.1 then readPastScalingListData pSldp.2 else pSldp.2)
        else (false, pSle.2)
      let pAmp := readFlag pScal.2
      let pSao := readFlag pAmp.2
      let pPcm := readFlag pSao.2
      let sps6 := { sps5 with
          ScalingListDataPresentFlag := pScal.1,
          AmpEnabledFlag := pAmp.1,
          SampleAdaptiveOffsetEnabledFlag := pSao.1,
          PCMEnabledFlag := pPcm.1 }
      let pPcmData : (Nat × Nat × Nat × Nat × Bool) × Reader :=
        if sps6.PCMEnabledFlag then
          let a := readBits 4 pPcm.2
          let b := readBits 4 a.2
          let c := readExpGolomb b.2
          let d := readExpGolomb c.2
          let e := readFlag d.2
          ((a.1, b.1, c.1 % 65536, d.1 % 65536, e.1), e.2)
        else ((0, 0, 0, 0, false), pPcm.2)
      let sps7 := { sps6 with
          PcmSampleBitDepthLumaMinus1 := pPcmData.1.1,
          PcmSampleBitDepthChromaMinus1 := pPcmData.1.2.1,
          Log2MinPcmLumaCodingBlockSize := pPcmData.1.2.2.1,
          Log2DiffMaxMinPcmLumaCodingBlockSize := pPcmData.1.2.2.2.1,
          PcmLoopFilterDisabledFlag := pPcmData.1.2.2.2.2 }
      let pNum := readExpGolomb pPcmData.2
      let num := pNum.1 % 256
      match parseRPSLoop num num 0 [] pNum.2 with
      | .error p => .error p
      | .ok (sets, rL) =>
        let sps8 := { sps7 with NumShortTermRefPicSets := num, ShortTermRefPicSets := sets }
        if 0 < num ∧ rL.err.isSome then .ok (some sps8, rL.err)
        else
          let pLt := readFlag rL
          let rAfterLt :=
            if pLt.1 then
              let pCnt := readExpGolomb pLt.2
              skipLongTermPics pCnt.1 (sps8.Log2MaxPicOrderCntLsbMinus4 + 4) pCnt.2
            else pLt.2
          let pMvp := readFlag rAfterLt
          let pSis := readFlag pMvp.2
          let pVuiF := readFlag pSis.2
          let sps9 := { sps8 with
              LongTermRefPicsPresentFlag := pLt.1,
              SpsTemporalMvpEnabledFlag := pMvp.1,
              StrongIntraSmoothingEnabledFlag := pSis.1,
              VUIParametersPresentFlag := pVuiF.1 }
          let pVui : Option VUIParameters × Reader :=
            if sps9.VUIParametersPresentFlag then
              let v := parseVUI pVuiF.2
              (some v.1, v.2)
            else (none, pVuiF.2)
          .ok (some { sps9 with VUI := pVui.1 }, pVui.2.err)

/-- 0x42 0x01 NAL header (type 33 = SPS), VPS id 0, and
`maxSubLayersMinus1 = 1`; the input ends there, so the profile-tier-level
reads all return zero with a latched truncation. -/
def spsC4Data : List Bool :=
  [false, true, false, false, false, false, true, false,
   false, false, false, false, false, false, false, true,
   false, false, false, false,
   false, false, true]

/-- VUI payload: eight leading presence flags off, timing info present,
zero `num_units_in_tick` and `time_scale`, POC flag off, HRD flag on. -/
def vuiC6Data : List Bool :=
  List.replicate 8 false ++ true :: (List.replicate 64 false ++ [false, true])

instance instDecEqExcept {e a : Type} [DecidableEq e] [DecidableEq a] :
    DecidableEq (Except e a) := fun x y =>
  match x, y with
  | .ok u, .ok v => decidable_of_iff (u = v) (by simp)
  | .error u, .error v => decidable_of_iff (u = v) (by simp)
  | .ok _, .error _ => isFalse (by simp)
  | .error _, .ok _ => isFalse (by simp)
set_option maxRecDepth 100000 in
/-- C1: On a scaling-list payload of 1020 one-bits (every prediction-mode
flag true, every Exp-Golomb code the single bit `1`), the source's skip
routine consumes only 1012 bits and leaves 8 bits unread with no error,
because the `_ = r.ReadExpGolomb` line for the DC coefficient takes the
method value without calling it; the spec's description of the routine
(one DC code for each of the 8 matrices with `sizeId > 1`) consumes all
1020 bits.  This exhibits the divergence between the code and the claim. -/
theorem scalingListDCNotRead :
    (readPastScalingListData (mkReader (List.replicate 1020 true))).bits.length = 8 ∧
    (readPastScalingListData (mkReader (List.replicate 1020 true))).err = none ∧
    (readPastScalingListDataSpec (mkReader (List.replicate 1020 true))).bits.length = 0 := by
  decide

/-- C5: whenever the conformance-window crop (offsets times the
chroma-subsampling factor selected by the chroma format IDC: (2,2) for
IDC 1, (2,1) for IDC 2, (1,1) otherwise) does not exceed the encoded
dimensions and all quantities are in uint32 range, `ImageSize` returns
exactly `encoded - (left+right)*subWidth` and
`encoded - (top+bottom)*subHeight`. -/
theorem imageSizeFormula (s : SPS)
    (hW : s.PicWidthInLumaSamples < 4294967296)
    (hH : s.PicHeightInLumaSamples < 4294967296)
    (hLR : s.ConformanceWindow.LeftOffset + s.ConformanceWindow.RightOffset < 4294967296)
    (hTB : s.ConformanceWindow.TopOffset + s.ConformanceWindow.BottomOffset < 4294967296)
    (hcw : (s.ConformanceWindow.LeftOffset + s.ConformanceWindow.RightOffset)
        * (subWidthHeightC s.ChromaFormatIDC).1 ≤ s.PicWidthInLumaSamples)
    (hch : (s.ConformanceWindow.TopOffset + s.ConformanceWindow.BottomOffset)
        * (subWidthHeightC s.ChromaFormatIDC).2 ≤ s.PicHeightInLumaSamples) :
    ImageSize s =
      (s.PicWidthInLumaSamples - (s.ConformanceWindow.LeftOffset + s.ConformanceWindow.RightOffset)
          * (subWidthHeightC s.ChromaFormatIDC).1,
       s.PicHeightInLumaSamples - (s.ConformanceWindow.TopOffset + s.ConformanceWindow.BottomOffset)
          * (subWidthHeightC s.ChromaFormatIDC).2) := by
  unfold ImageSize
  rw [Nat.mod_eq_of_lt hLR, Nat.mod_eq_of_lt hTB, Nat.mod_eq_of_lt hW, Nat.mod_eq_of_lt hH]
  generalize hk : (s.ConformanceWindow.LeftOffset + s.ConformanceWindow.RightOffset)
      * (subWidthHeightC s.ChromaFormatIDC).1 = k at hcw
  generalize hm : (s.ConformanceWindow.TopOffset + s.ConformanceWindow.BottomOffset)
      * (subWidthHeightC s.ChromaFormatIDC).2 = m at hch
  simp only [Prod.mk.injEq]
  constructor <;> omega
/-- C5 witness: the formula at the claim's example yields 1920 by 1080. -/
theorem imageSizeFormula_witness : ImageSize spsGeometryExample = (1920, 1080) :=
  imageSizeFormula spsGeometryExample (by decide) (by decide) (by decide) (by decide)
    (by decide) (by decide)
/-- C9: `ImageSize` performs no bounds validation: when the crop exceeds
the encoded dimension it still returns a value, namely the uint32-wrapped
subtraction `2^32 + encoded - crop`. -/
theorem imageSizeWrap (s : SPS)
    (hW : s.PicWidthInLumaSamples < 4294967296)
    (hH : s.PicHeightInLumaSamples < 4294967296)
    (hLR : s.ConformanceWindow.LeftOffset + s.ConformanceWindow.RightOffset < 4294967296)
    (hTB : s.ConformanceWindow.TopOffset + s.ConformanceWindow.BottomOffset < 4294967296)
    (hcw : (s.ConformanceWindow.LeftOffset + s.ConformanceWindow.RightOffset)
        * (subWidthHeightC s.ChromaFormatIDC).1 < 4294967296)
    (hch : (s.ConformanceWindow.TopOffset + s.ConformanceWindow.BottomOffset)
        * (subWidthHeightC s.ChromaFormatIDC).2 < 4294967296) :
    (s.PicWidthInLumaSamples < (s.ConformanceWindow.LeftOffset + s.ConformanceWindow.RightOffset)
        * (subWidthHeightC s.ChromaFormatIDC).1 →
      (ImageSize s).1 = 4294967296 + s.PicWidthInLumaSamples -
        (s.ConformanceWindow.LeftOffset + s.ConformanceWindow.RightOffset)
          * (subWidthHeightC s.ChromaFormatIDC).1) ∧
    (s.PicHeightInLumaSamples < (s.ConformanceWindow.TopOffset + s.ConformanceWindow.BottomOffset)
        * (subWidthHeightC s.ChromaFormatIDC).2 →
      (ImageSize s).2 = 4294967296 + s.PicHeightInLumaSamples -
        (s.ConformanceWindow.TopOffset + s.ConformanceWindow.BottomOffset)
          * (subWidthHeightC s.ChromaFormatIDC).2) := by
  unfold ImageSize
  rw [Nat.mod_eq_of_lt hLR, Nat.mod_eq_of_lt hTB, Nat.mod_eq_of_lt hW, Nat.mod_eq_of_lt hH]
  generalize hk : (s.ConformanceWindow.LeftOffset + s.ConformanceWindow.RightOffset)
      * (subWidthHeightC s.ChromaFormatIDC).1 = k at hcw
  generalize hm : (s.ConformanceWindow.TopOffset + s.ConformanceWindow.BottomOffset)
      * (subWidthHeightC s.ChromaFormatIDC).2 = m at hch
  constructor <;> intro h <;> simp only [] <;> omega
/-- C9 witness: at the malformed-offset record both dimensions wrap to
`2^32 - 4`. -/
theorem imageSizeWrap_witness :
    (ImageSize spsOverflowExample).1 = 4294967292 ∧ (ImageSize spsOverflowExample).2 = 4294967292 :=
  ⟨(imageSizeWrap spsOverflowExample (by decide) (by decide) (by decide) (by decide)
      (by decide) (by decide)).1 (by decide),
   (imageSizeWrap spsOverflowExample (by decide) (by decide) (by decide) (by decide)
      (by decide) (by decide)).2 (by decide)⟩

lemma setError_err_none (e : DecodeError) (r : Reader) (h : r.err = none) :
    (setError e r).err = some e := by
  simp [setError, h]

lemma setError_err_isSome (e : DecodeError) (r : Reader) :
    ((setError e r).err).isSome = true := by
  unfold setError
  by_cases h : r.err.isSome <;> simp [h]

lemma setError_err_ne_none (e : DecodeError) (r : Reader) : (setError e r).err ≠ none := by
  intro hc
  have := setError_err_isSome e r
  rw [hc] at this
  simp at this

lemma parseSTRPSExplicit_pos (r0 : Reader)
    (h16 : 16 < (readExpGolomb r0).1 % 256 ∨ 16 < (readExpGolomb (readExpGolomb r0).2).1 % 256) :
    parseSTRPSExplicit r0 =
      ({ stRPSZero with
          NumNegativePics := (readExpGolomb r0).1 % 256,
          NumPositivePics := (readExpGolomb (readExpGolomb r0).2).1 % 256 },
       setError .tooManyRefPics (readExpGolomb (readExpGolomb r0).2).2) := by
  simp only [parseSTRPSExplicit]
  rw [if_pos h16]

lemma parseSTRPSExplicit_neg (r0 : Reader)
    (h16 : ¬ (16 < (readExpGolomb r0).1 % 256 ∨ 16 < (readExpGolomb (readExpGolomb r0).2).1 % 256)) :
    parseSTRPSExplicit r0 =
      ({ DeltaPocS0 := (readDeltaPocPairs ((readExpGolomb r0).1 % 256)
            (readExpGolomb (readExpGolomb r0).2).2).1,
         UsedByCurrPicS0 := (readDeltaPocPairs ((readExpGolomb r0).1 % 256)
            (readExpGolomb (readExpGolomb r0).2).2).2.1,
         DeltaPocS1 := (readDeltaPocPairs ((readExpGolomb (readExpGolomb r0).2).1 % 256)
            (readDeltaPocPairs ((readExpGolomb r0).1 % 256)
              (readExpGolomb (readExpGolomb r0).2).2).2.2).1,
         UsedByCurrPicS1 := (readDeltaPocPairs ((readExpGolomb (readExpGolomb r0).2).1 % 256)
            (readDeltaPocPairs ((readExpGolomb r0).1 % 256)
              (readExpGolomb (readExpGolomb r0).2).2).2.2).2.1,
         NumNegativePics := (readExpGolomb r0).1 % 256,
         NumPositivePics := (readExpGolomb (readExpGolomb r0).2).1 % 256,
         NumDeltaPocs := ((readExpGolomb r0).1 % 256 + (readExpGolomb (readExpGolomb r0).2).1 % 256) % 256 },
       (readDeltaPocPairs ((readExpGolomb (readExpGolomb r0).2).1 % 256)
          (readDeltaPocPairs ((readExpGolomb r0).1 % 256)
            (readExpGolomb (readExpGolomb r0).2).2).2.2).2.2) := by
  simp only [parseSTRPSExplicit]
  rw [if_neg h16]

/-- C3 counterexample: the input encodes a negative-picture count of 17
(Exp-Golomb `000010010`) and then ends, so the positive-count read
truncates.  The decoded negative count exceeds 16, yet the latched error
is `Truncated`, not `TooManyReferencePictures` (the cursor keeps the
first error), refuting the claim as stated. -/
theorem strpsTooManyCex :
    (parseSTRPSExplicit
        (mkReader [false, false, false, false, true, false, false, true, false])).1.NumNegativePics
      = 17 ∧
    (parseSTRPSExplicit
        (mkReader [false, false, false, false, true, false, false, true, false])).2.err
      = some DecodeError.truncated := by
  decide

/-- C3 (amended): when the two count reads complete with no error latched
and either decoded count exceeds 16, the `TooManyReferencePictures` error
is latched, the delta-POC lists stay empty, and the outer SPS loop
returns right after appending this entry; conversely an entry whose
decode ends with no latched error has both counts at most 16. -/
theorem strpsTooManyAmended (r0 : Reader) :
    ((readExpGolomb (readExpGolomb r0).2).2.err = none →
      (16 < (readExpGolomb r0).1 % 256 ∨ 16 < (readExpGolomb (readExpGolomb r0).2).1 % 256) →
      (parseSTRPSExplicit r0).2.err = some DecodeError.tooManyRefPics ∧
      (parseSTRPSExplicit r0).1.DeltaPocS0 = [] ∧
      (parseSTRPSExplicit r0).1.DeltaPocS1 = [] ∧
      (parseSTRPSExplicit r0).1.NumNegativePics = (readExpGolomb r0).1 % 256 ∧
      (parseSTRPSExplicit r0).1.NumPositivePics = (readExpGolomb (readExpGolomb r0).2).1 % 256 ∧
      (∀ num n sets, parseRPSLoop num (n + 1) 0 sets r0 =
        .ok (sets ++ [(parseSTRPSExplicit r0).1], (parseSTRPSExplicit r0).2))) ∧
    ((parseSTRPSExplicit r0).2.err = none →
      (parseSTRPSExplicit r0).1.NumNegativePics ≤ 16 ∧
      (parseSTRPSExplicit r0).1.NumPositivePics ≤ 16) := by
  constructor
  · intro hok h16
    rw [parseSTRPSExplicit_pos r0 h16]
    refine ⟨setError_err_none _ _ hok, rfl, rfl, rfl, rfl, ?_⟩
    intro num n sets
    have hstep : parseShortTermRPS r0 0 num sets = .ok (parseSTRPSExplicit r0) := by
      simp [parseShortTermRPS]
    simp only [parseRPSLoop, hstep]
    rw [parseSTRPSExplicit_pos r0 h16]
    simp [setError_err_isSome]
  · intro hnone
    by_cases h16 : 16 < (readExpGolomb r0).1 % 256 ∨ 16 < (readExpGolomb (readExpGolomb r0).2).1 % 256
    · rw [parseSTRPSExplicit_pos r0 h16] at hnone
      dsimp only at hnone
      exact absurd hnone (setError_err_ne_none _ _)
    · rw [parseSTRPSExplicit_neg r0 h16]
      push_neg at h16
      exact ⟨h16.1, h16.2⟩

/-- C3 witness: the explicit entry decoding counts 17 and 0 from a
complete ten-bit input latches `TooManyReferencePictures`, keeps
`DeltaPocS0` empty, and a surrounding three-entry loop stops right after
appending it. -/
theorem strpsTooManyAmended_witness :
    (parseSTRPSExplicit
        (mkReader [false, false, false, false, true, false, false, true, false, true])).2.err
      = some DecodeError.tooManyRefPics ∧
    (parseSTRPSExplicit
        (mkReader [false, false, false, false, true, false, false, true, false, true])).1.DeltaPocS0
      = [] ∧
    parseRPSLoop 3 3 0 []
        (mkReader [false, false, false, false, true, false, false, true, false, true]) =
      .ok ([(parseSTRPSExplicit
              (mkReader [false, false, false, false, true, false, false, true, false, true])).1],
           (parseSTRPSExplicit
              (mkReader [false, false, false, false, true, false, false, true, false, true])).2) := by
  have h := (strpsTooManyAmended
    (mkReader [false, false, false, false, true, false, false, true, false, true])).1
    (by decide) (by decide)
  exact ⟨h.1, h.2.1, h.2.2.2.2.2 3 2 []⟩

/-- C7: in the short-term-RPS loop of `ParseSPSNALUnit`, when decoding
the entry at index `idx` returns with the cursor error set, the loop
appends that entry and stops at once, returning the entries built so far
with the erroring cursor; no later entry is attempted. -/
theorem rpsLoopCheckpoint (num n idx : Nat) (sets : List ShortTermRPS) (r r1 : Reader)
    (s : ShortTermRPS) (e : DecodeError)
    (hp : parseShortTermRPS r idx num sets = .ok (s, r1))
    (he : r1.err = some e) :
    parseRPSLoop num (n + 1) idx sets r = .ok (sets ++ [s], r1) := by
  simp only [parseRPSLoop, hp]
  simp [he]

/-- C7 witness: a two-entry loop whose first entry latches
`TooManyReferencePictures` returns immediately with only that entry. -/
theorem rpsLoopCheckpoint_witness :
    parseRPSLoop 2 2 0 []
        (mkReader [false, false, false, false, true, false, false, true, false, true]) =
      .ok ([⟨[], [], [], [], 17, 0, 0⟩], ⟨[], some DecodeError.tooManyRefPics⟩) :=
  rpsLoopCheckpoint 2 1 0 []
    (mkReader [false, false, false, false, true, false, false, true, false, true])
    ⟨[], some DecodeError.tooManyRefPics⟩ ⟨[], [], [], [], 17, 0, 0⟩
    DecodeError.tooManyRefPics (by decide) (by decide)

lemma readDeltaPocPairs_len1 (n : Nat) (r : Reader) : (readDeltaPocPairs n r).1.length = n := by
  induction n generalizing r with
  | zero => rfl
  | succ k ih => simp [readDeltaPocPairs, ih]

lemma readDeltaPocPairs_len2 (n : Nat) (r : Reader) : (readDeltaPocPairs n r).2.1.length = n := by
  induction n generalizing r with
  | zero => rfl
  | succ k ih => simp [readDeltaPocPairs, ih]

lemma readDeltaPocPairs_map (n : Nat) (r : Reader) :
    (readDeltaPocPairs n r).1 = (rawDeltaPocCodes n r).map (fun v => (v + 1) % 4294967296) := by
  induction n generalizing r with
  | zero => rfl
  | succ k ih => simp [readDeltaPocPairs, rawDeltaPocCodes, ih]

/-- C10: for an explicit-branch entry whose decoded counts pass the
16-bound check, the list lengths match the counts, `NumDeltaPocs` is
their sum, and every stored delta-POC equals its raw Exp-Golomb code
plus one (narrowed to uint32). -/
theorem strpsExplicitInvariants (r0 : Reader)
    (h0 : (readExpGolomb r0).1 % 256 ≤ 16)
    (h1 : (readExpGolomb (readExpGolomb r0).2).1 % 256 ≤ 16) :
    (parseSTRPSExplicit r0).1.DeltaPocS0.length = (readExpGolomb r0).1 % 256 ∧
    (parseSTRPSExplicit r0).1.UsedByCurrPicS0.length = (readExpGolomb r0).1 % 256 ∧
    (parseSTRPSExplicit r0).1.DeltaPocS1.length = (readExpGolomb (readExpGolomb r0).2).1 % 256 ∧
    (parseSTRPSExplicit r0).1.UsedByCurrPicS1.length = (readExpGolomb (readExpGolomb r0).2).1 % 256 ∧
    (parseSTRPSExplicit r0).1.NumNegativePics = (readExpGolomb r0).1 % 256 ∧
    (parseSTRPSExplicit r0).1.NumPositivePics = (readExpGolomb (readExpGolomb r0).2).1 % 256 ∧
    (parseSTRPSExplicit r0).1.NumDeltaPocs =
      (parseSTRPSExplicit r0).1.NumNegativePics + (parseSTRPSExplicit r0).1.NumPositivePics ∧
    (parseSTRPSExplicit r0).1.DeltaPocS0 =
      (rawDeltaPocCodes ((readExpGolomb r0).1 % 256)
        (readExpGolomb (readExpGolomb r0).2).2).map (fun v => (v + 1) % 4294967296) ∧
    (parseSTRPSExplicit r0).1.DeltaPocS1 =
      (rawDeltaPocCodes ((readExpGolomb (readExpGolomb r0).2).1 % 256)
        (readDeltaPocPairs ((readExpGolomb r0).1 % 256)
          (readExpGolomb (readExpGolomb r0).2).2).2.2).map (fun v => (v + 1) % 4294967296) := by
  have h16 : ¬ (16 < (readExpGolomb r0).1 % 256 ∨
      16 < (readExpGolomb (readExpGolomb r0).2).1 % 256) := by omega
  rw [parseSTRPSExplicit_neg r0 h16]
  refine ⟨readDeltaPocPairs_len1 _ _, readDeltaPocPairs_len2 _ _,
    readDeltaPocPairs_len1 _ _, readDeltaPocPairs_len2 _ _, rfl, rfl,
    Nat.mod_eq_of_lt (by omega), readDeltaPocPairs_map _ _, readDeltaPocPairs_map _ _⟩

/-- C10 witness: counts 1 and 0 followed by one pair with raw delta code
2 store the delta `2 + 1 = 3` and a `NumDeltaPocs` of 1. -/
theorem strpsExplicitInvariants_witness :
    (parseSTRPSExplicit (mkReader [false, true, false, true, false, true, true, true])).1.DeltaPocS0
        = [3] ∧
    (parseSTRPSExplicit (mkReader [false, true, false, true, false, true, true, true])).1.NumDeltaPocs
        = 1 := by
  have h := strpsExplicitInvariants (mkReader [false, true, false, true, false, true, true, true])
    (by decide) (by decide)
  refine ⟨?_, ?_⟩
  · rw [h.2.2.2.2.2.2.2.1]
    decide
  · rw [h.2.2.2.2.2.2.1]
    decide

/-- C2: calling `parseShortTermRPS` in the slice-header configuration
`idx = numSTRefPicSets = 1` with one previously decoded entry and a
payload encoding `interRPSPredFlag = 1`, `deltaIdxMinus1 = 1` (so
`deltaIdx = 2 > idx`) latches the `Malformed` error but then goes on to
index the entries at `byte(1 - 2) = 255`, which is out of range: the
decode panics instead of failing gracefully. -/
theorem strpsDeltaIdxPanic :
    parseShortTermRPS (mkReader [true, false, true, false]) 1 1 [stRPSZero] =
      .error GoPanic.indexOutOfRange := by
  decide

set_option maxHeartbeats 1000000 in
/-- C8: whenever the 16-bit NAL header classifies to a unit type other
than SPS, `ParseSPSNALUnit` returns no record (`none`) together with the
`WrongUnitType` error, regardless of any remaining payload bits. -/
theorem wrongUnitTypeRejected (data : List Bool)
    (h : getNaluType ((readBits 16 (mkReader data)).1 / 256 % 256) ≠ NALU_SPS) :
    ParseSPSNALUnit data =
      .ok (none, some (.wrongUnitType (getNaluType ((readBits 16 (mkReader data)).1 / 256 % 256)))) := by
  unfold ParseSPSNALUnit
  rw [if_pos h]

/-- C8 witness: an all-zero 16-bit header decodes to type 0 and is
rejected with `WrongUnitType` and no record. -/
theorem wrongUnitTypeRejected_witness :
    ParseSPSNALUnit (List.replicate 16 false) = .ok (none, some (.wrongUnitType 0)) :=
  wrongUnitTypeRejected (List.replicate 16 false) (by decide)

set_option maxHeartbeats 2000000 in
/-- C4: when the header classifies to SPS and the decoded
`maxSubLayersMinus1` is non-zero, `ParseSPSNALUnit` returns, with a nil
(success) status, the record holding only the header fields and the
profile-tier-level, every field after `ProfileTierLevel` keeping its
zero-value default. -/
theorem spsStopsAfterPTL (data : List Bool)
    (h1 : getNaluType ((readBits 16 (mkReader data)).1 / 256 % 256) = NALU_SPS)
    (h2 : (readBits 3 (readBits 4 (readBits 16 (mkReader data)).2).2).1 ≠ 0) :
    let pHdr := readBits 16 (mkReader data)
    let pVps := readBits 4 pHdr.2
    let pMsl := readBits 3 pVps.2
    let pTn := readFlag pMsl.2
    let pPs := readBits 2 pTn.2
    let pTf := readFlag pPs.2
    let pPi := readBits 5 pTf.2
    let pCf := readBits 32 pPi.2
    let pCi := readBits 48 pCf.2
    let pLi := readBits 8 pCi.2
    ParseSPSNALUnit data = .ok (some { spsZero with
        VpsID := pVps.1,
        MaxSubLayersMinus1 := pMsl.1,
        TemporalIDNestingFlag := pTn.1,
        ProfileTierLevel := {
          GeneralProfileSpace := pPs.1,
          GeneralTierFlag := pTf.1,
          GeneralProfileIDC := pPi.1,
          GeneralProfileCompatibilityFlags := pCf.1,
          GeneralConstraintIndicatorFlags := pCi.1,
          GeneralLevelIDC := pLi.1 } }, none) := by
  intro pHdr pVps pMsl pTn pPs pTf pPi pCf pCi pLi
  unfold ParseSPSNALUnit
  rw [if_neg (not_not_intro h1)]
  rw [if_pos h2]

/-- C4 witness: on `spsC4Data` (SPS header, `maxSubLayersMinus1 = 1`,
nothing further) the decode returns the record that differs from the
zero SPS only in `MaxSubLayersMinus1`, with nil status. -/
theorem spsStopsAfterPTL_witness :
    ParseSPSNALUnit spsC4Data = .ok (some { spsZero with MaxSubLayersMinus1 := 1 }, none) :=
  spsStopsAfterPTL spsC4Data (by decide) (by decide)

lemma parseVUIHead_defaults (r : Reader) :
    (parseVUIHead r).1.TimingInfoPresentFlag = false ∧
    (parseVUIHead r).1.HrdParametersPresentFlag = false ∧
    (parseVUIHead r).1.BitstreamRestrictionFlag = false ∧
    (parseVUIHead r).1.BitstreamResctrictions = none :=
  ⟨rfl, rfl, rfl, rfl⟩

lemma parseVUITiming_preserve (v : VUIParameters) (r : Reader) :
    (parseVUITiming v r).1.BitstreamRestrictionFlag = v.BitstreamRestrictionFlag ∧
    (parseVUITiming v r).1.BitstreamResctrictions = v.BitstreamResctrictions ∧
    (parseVUITiming v r).1.TimingInfoPresentFlag = v.TimingInfoPresentFlag :=
  ⟨rfl, rfl, rfl⟩

lemma parseVUITail_hrd (v : VUIParameters) (r : Reader) :
    (parseVUITail v r).1.HrdParametersPresentFlag = v.HrdParametersPresentFlag := by
  unfold parseVUITail
  by_cases hb : (readFlag r).1 <;> simp [hb]

/-- C6: whenever the decoded VUI reports the HRD-parameters-present flag
true (which requires timing info present), `parseVUI` returned at that
point: the bitstream-restriction flag is never read, so it is false and
no restrictions sub-aggregate exists, and the whole result - fields and
cursor - equals the decode stopped at the HRD flag. -/
theorem vuiHRDEarlyReturn (r : Reader)
    (h : (parseVUI r).1.HrdParametersPresentFlag = true) :
    (parseVUI r).1.TimingInfoPresentFlag = true ∧
    (parseVUI r).1.BitstreamRestrictionFlag = false ∧
    (parseVUI r).1.BitstreamResctrictions = none ∧
    parseVUI r = vuiStopAtHRD r := by
  by_cases tf : (readFlag (parseVUIHead r).2).1 = true
  · by_cases hrd : (parseVUITiming
        { (parseVUIHead r).1 with TimingInfoPresentFlag := (readFlag (parseVUIHead r).2).1 }
        (readFlag (parseVUIHead r).2).2).1.HrdParametersPresentFlag = true
    · have he : parseVUI r = vuiStopAtHRD r := by
        simp only [parseVUI, vuiStopAtHRD]
        rw [if_pos tf, if_pos hrd]
      refine ⟨?_, ?_, ?_, he⟩
      · rw [he]
        simp only [vuiStopAtHRD]
        rw [(parseVUITiming_preserve _ _).2.2]
        exact tf
      · rw [he]
        simp only [vuiStopAtHRD]
        rw [(parseVUITiming_preserve _ _).1]
        exact (parseVUIHead_defaults r).2.2.1
      · rw [he]
        simp only [vuiStopAtHRD]
        rw [(parseVUITiming_preserve _ _).2.1]
        exact (parseVUIHead_defaults r).2.2.2
    · exfalso
      have he : (parseVUI r).1.HrdParametersPresentFlag = false := by
        simp only [parseVUI]
        rw [if_pos tf, if_neg hrd, parseVUITail_hrd]
        simpa using hrd
      rw [h] at he
      exact Bool.noConfusion he
  · exfalso
    have he : (parseVUI r).1.HrdParametersPresentFlag = false := by
      simp only [parseVUI]
      rw [if_neg tf, parseVUITail_hrd]
      exact (parseVUIHead_defaults r).2.1
    rw [h] at he
    exact Bool.noConfusion he

set_option maxRecDepth 10000 in
/-- C6 witness: on `vuiC6Data` (timing info present, HRD flag on) the
decode stops at the HRD flag with no bitstream restrictions. -/
theorem vuiHRDEarlyReturn_witness :
    (parseVUI (mkReader vuiC6Data)).1.TimingInfoPresentFlag = true ∧
    (parseVUI (mkReader vuiC6Data)).1.BitstreamRestrictionFlag = false ∧
    (parseVUI (mkReader vuiC6Data)).1.BitstreamResctrictions = none ∧
    parseVUI (mkReader vuiC6Data) = vuiStopAtHRD (mkReader vuiC6Data) :=
  vuiHRDEarlyReturn (mkReader vuiC6Data) (by decide)
